import Mathlib

/-!
Shallow embedding of the signal-driven trading loop of this repository
(src/bot.py, src/forex.py, src/forex_trading_bot.py) and proofs of the
spec claims about it.

Conventions of the embedding:
* Python floats are modelled as exact rationals `ℚ`; pandas `NaN` and `inf`
  (which arise only in the RSI computation and in short rolling windows)
  are modelled explicitly by the `EVal` type and by `Option` results.
* A pandas `DataFrame` of candles is a chronological `List Candle`.
* `iloc[-1]` / `iloc[-2]` become `last1` / `last2` (index `len-1` / `len-2`).
* Network transport is modelled by explicit inductive outcome types: a raised
  exception, an error response, or a successful payload.
-/

/-- An OHLC bar, the rows of the candle DataFrames (columns are renamed to
`Open/High/Low/Close` by both bots before use). -/
structure Candle where
  Open : ℚ
  High : ℚ
  Low : ℚ
  Close : ℚ
deriving DecidableEq, Repr

/-- `series.iloc[-1]`: the element at index `len - 1` (default 0, unused at the
guarded call sites). -/
def last1 (l : List ℚ) : ℚ := l.getD (l.length - 1) 0

/-- `series.iloc[-2]`: the element at index `len - 2` (default 0, unused at the
guarded call sites). -/
def last2 (l : List ℚ) : ℚ := l.getD (l.length - 2) 0

/-- Tail of `series.ewm(span, adjust=False).mean()`: `y_t = (1-a)*y_{t-1} + a*x_t`. -/
def emaRec (a : ℚ) (prev : ℚ) : List ℚ → List ℚ
  | [] => []
  | x :: xs =>
    let y := (1 - a) * prev + a * x
    y :: emaRec a y xs

/-- `series.ewm(span=span, adjust=False).mean()` (pandas exponential moving
average, seeded with the first value, `a = 2/(span+1)`); the `ema` helper of
forex.py and the `.ewm(...).mean()` calls of bot.py. -/
def ema (series : List ℚ) (span : ℕ) : List ℚ :=
  match series with
  | [] => []
  | x :: xs => x :: emaRec (2 / ((span : ℚ) + 1)) x xs

/-- `series.diff()` dropping the leading NaN: `delta_i = x_{i+1} - x_i`. -/
def deltas (l : List ℚ) : List ℚ :=
  List.zipWith (fun a b => b - a) l l.tail

/-- The last `period` entries of a series (the data seen by the final position
of a `rolling(period)` window). -/
def lastWindow (l : List ℚ) (period : ℕ) : List ℚ :=
  l.drop (l.length - period)

theorem ema_length (series : List ℚ) (span : ℕ) :
    (ema series span).length = series.length := by
  have h : ∀ (a prev : ℚ) (l : List ℚ), (emaRec a prev l).length = l.length := by
    intro a prev l
    induction l generalizing prev with
    | nil => rfl
    | cons x xs ih => simp [emaRec, ih]
  cases series with
  | nil => rfl
  | cons x xs => simp [ema, h]

theorem deltas_length (l : List ℚ) : (deltas l).length = l.length - 1 := by
  cases l with
  | nil => rfl
  | cons x xs => simp [deltas]

/-! ## forex.py — the Ensemble-Vote bot -/

namespace Forex

def EMA_FAST : ℕ := 5
def EMA_SLOW : ℕ := 20
def RSI_PERIOD : ℕ := 14
def BB_PERIOD : ℕ := 20
def MACD_FAST : ℕ := 12
def MACD_SLOW : ℕ := 26
def MACD_SIGNAL : ℕ := 9
def VOTE_THRESHOLD : ℕ := 2
def DERIV_SYMBOLS : List String := ["R_100", "R_25"]

/-- A pandas float that may be `NaN` or `+inf` (the only special values the
RSI computation can take). All comparisons against `NaN` are false; `inf`
compares greater than every rational. -/
inductive EVal where
  | nan : EVal
  | inf : EVal
  | val (q : ℚ) : EVal
deriving DecidableEq, Repr

/-- `e > q` as Python evaluates it on floats. -/
def EVal.gtQ : EVal → ℚ → Bool
  | .nan, _ => false
  | .inf, _ => true
  | .val x, q => decide (q < x)

/-- `e < q` as Python evaluates it on floats. -/
def EVal.ltQ : EVal → ℚ → Bool
  | .nan, _ => false
  | .inf, _ => false
  | .val x, q => decide (x < q)

/-- Last value of `up.rolling(period, min_periods=period).mean()` in `rsi`:
the mean of the positive parts (`delta.clip(lower=0)`) of the trailing
`period` deltas.  (With fewer than `period` deltas pandas reports NaN; that
case is handled by the length guard in `rsLast`.) -/
def ma_upLast (close : List ℚ) (period : ℕ) : ℚ :=
  ((lastWindow (deltas close) period).map (fun d => max d 0)).sum / (period : ℚ)

/-- Last value of `down.rolling(period, min_periods=period).mean()` in `rsi`:
the mean of `-1 * delta.clip(upper=0)` over the trailing `period` deltas. -/
def ma_downLast (close : List ℚ) (period : ℕ) : ℚ :=
  ((lastWindow (deltas close) period).map (fun d => max (-d) 0)).sum / (period : ℚ)

/-- Last value of `rs = ma_up / ma_down` in `rsi`, with pandas float
semantics: NaN when the rolling window has fewer than `period` non-NaN
deltas (`series.diff()` puts a NaN at position 0), `0/0 = NaN`,
`positive/0 = inf`. -/
def rsLast (close : List ℚ) (period : ℕ) : EVal :=
  if (deltas close).length < period then .nan
  else if ma_downLast close period = 0 then
    (if ma_upLast close period = 0 then .nan else .inf)
  else .val (ma_upLast close period / ma_downLast close period)

/-- Last value of `rsi(series, period) = 100 - (100 / (1 + rs))`:
`rs = NaN` propagates, `rs = inf` gives `100 - 100/inf = 100`. -/
def rsiLast (close : List ℚ) (period : ℕ) : EVal :=
  match rsLast close period with
  | .nan => .nan
  | .inf => .val 100
  | .val q => .val (100 - 100 / (1 + q))

/-- The RSI buy condition of `ensemble_signal`: `r_now > 55 and r_now < 90`. -/
def rsiBuyVote (r_now : EVal) : Bool := r_now.gtQ 55 && r_now.ltQ 90

/-- The RSI sell condition of `ensemble_signal`: `r_now < 45 and r_now > 10`. -/
def rsiSellVote (r_now : EVal) : Bool := r_now.ltQ 45 && r_now.gtQ 10

/-- Last values of the rolling mean and the rolling *sample variance*
(`ddof=1`, the square of pandas `rolling(period).std()`) used by
`bollinger_bands`; `none` models the NaN bands produced when the series is
shorter than `period` (or `period < 2`, where the std is NaN). -/
def bollingerLast (close : List ℚ) (period : ℕ) : Option (ℚ × ℚ) :=
  if 2 ≤ period ∧ period ≤ close.length then
    let w := lastWindow close period
    let m := w.sum / (period : ℚ)
    some (m, (w.map (fun x => (x - m) * (x - m))).sum / ((period : ℚ) - 1))
  else none

/-- `macd_line = ema(series, fast) - ema(series, slow)`. -/
def macdLine (close : List ℚ) : List ℚ :=
  List.zipWith (fun a b => a - b) (ema close MACD_FAST) (ema close MACD_SLOW)

/-- `hist = macd_line - signal_line` where
`signal_line = macd_line.ewm(span=signal, adjust=False).mean()`. -/
def macdHist (close : List ℚ) : List ℚ :=
  List.zipWith (fun a b => a - b) (macdLine close) (ema (macdLine close) MACD_SIGNAL)

/-- The EMA-crossover buy vote of `ensemble_signal`:
`ema_f.iloc[-1] > ema_s.iloc[-1] and ema_f.iloc[-2] <= ema_s.iloc[-2]`. -/
def emaCrossBuy (close : List ℚ) : Bool :=
  decide (last1 (ema close EMA_SLOW) < last1 (ema close EMA_FAST)) &&
  decide (last2 (ema close EMA_FAST) ≤ last2 (ema close EMA_SLOW))

/-- The EMA-crossover sell vote of `ensemble_signal`:
`ema_f.iloc[-1] < ema_s.iloc[-1] and ema_f.iloc[-2] >= ema_s.iloc[-2]`. -/
def emaCrossSell (close : List ℚ) : Bool :=
  decide (last1 (ema close EMA_FAST) < last1 (ema close EMA_SLOW)) &&
  decide (last2 (ema close EMA_SLOW) ≤ last2 (ema close EMA_FAST))

/-- The `(votes_buy, votes_sell)` counters accumulated by `ensemble_signal`:
EMA crossover, RSI band, Bollinger mean-reversion (the float comparison
`close > ma + 2*std` is encoded exactly over ℚ as
`ma < close ∧ 4*var < (close-ma)^2`, since `std = sqrt var ≥ 0`; NaN bands
compare false), and MACD histogram zero-cross. -/
def votesOf (close : List ℚ) : ℕ × ℕ :=
  let v1 : ℕ × ℕ :=
    if emaCrossBuy close then (1, 0)
    else if emaCrossSell close then (0, 1)
    else (0, 0)
  let r_now := rsiLast close RSI_PERIOD
  let v2 :=
    if rsiBuyVote r_now then (v1.1 + 1, v1.2)
    else if rsiSellVote r_now then (v1.1, v1.2 + 1)
    else v1
  let v3 :=
    match bollingerLast close BB_PERIOD with
    | none => v2
    | some mv =>
      let c := last1 close
      if decide (mv.1 < c) && decide (4 * mv.2 < (c - mv.1) * (c - mv.1)) then (v2.1, v2.2 + 1)
      else if decide (c < mv.1) && decide (4 * mv.2 < (mv.1 - c) * (mv.1 - c)) then (v2.1 + 1, v2.2)
      else v2
  let h := macdHist close
  if decide (0 < last1 h) && decide (last2 h ≤ 0) then (v3.1 + 1, v3.2)
  else if decide (last1 h < 0) && decide (0 ≤ last2 h) then (v3.1, v3.2 + 1)
  else v3

/-- The final decision of `ensemble_signal` from the two vote counters. -/
def decideVotes (votes_buy votes_sell : ℕ) : ℕ :=
  if VOTE_THRESHOLD ≤ votes_buy ∧ votes_sell < votes_buy then 2
  else if VOTE_THRESHOLD ≤ votes_sell ∧ votes_buy < votes_sell then 1
  else 0

/-- `ensemble_signal(df)` of forex.py. Returns `some (signal, votes_buy,
votes_sell)`; `none` models the `IndexError` raised by `.iloc[-2]` when the
DataFrame has fewer than two rows (the function has no length guard of its
own — its caller checks the window length before calling). -/
def ensemble_signal (df : List Candle) : Option (ℕ × ℕ × ℕ) :=
  let close := df.map Candle.Close
  if close.length < 2 then none
  else
    some (decideVotes (votesOf close).1 (votesOf close).2,
          (votesOf close).1, (votesOf close).2)

/-- Transport outcome observed by `get_valid_symbol` of forex.py: either the
`active_symbols` list extracted from the response (missing key gives `[]`),
or a raised exception caught by its `except` clause. -/
inductive SymbolLookup where
  | ok (active : List String)
  | exception
deriving DecidableEq, Repr

/-- `get_valid_symbol()` of forex.py: first configured symbol present in the
venue's active list, with fallback to `DERIV_SYMBOLS[0]` when none matches,
the list is missing/empty, or the lookup raises. -/
def get_valid_symbol : SymbolLookup → String
  | .ok active =>
    match DERIV_SYMBOLS.find? (fun s => active.contains s) with
    | some s => s
    | none => DERIV_SYMBOLS.headD ""
  | .exception => DERIV_SYMBOLS.headD ""

end Forex

/-! ## bot.py — the Crossover-Filter bot and its trading loop -/

namespace Bot

def STAKE : ℚ := 1
def DERIV_SYMBOLS : List String := ["R_25", "R_10"]
def MIN_ATR : ℚ := 3 / 10
def DAILY_LOSS_LIMIT : ℚ := -10

/-- Transport outcome observed by `get_valid_symbol` of bot.py: an `error`
field in the authorize response, the `active_symbols` list of a successful
lookup (missing key gives `[]`), or a raised exception caught by `except`. -/
inductive SymbolLookup where
  | authError
  | ok (available : List String)
  | exception
deriving DecidableEq, Repr

/-- `get_valid_symbol()` of bot.py: `DERIV_SYMBOLS[0]` on an authorize error,
the first configured symbol present in `available`, and `DERIV_SYMBOLS[0]`
when none matches or the lookup raises. -/
def get_valid_symbol : SymbolLookup → String
  | .authError => DERIV_SYMBOLS.headD ""
  | .ok available =>
    match DERIV_SYMBOLS.find? (fun s => available.contains s) with
    | some s => s
    | none => DERIV_SYMBOLS.headD ""
  | .exception => DERIV_SYMBOLS.headD ""

/-- `bullish_cross` of `hybrid_signal_generator`:
`(prev_ema9 <= prev_ema21) and (ema9 > ema21)`. -/
def bullish_cross (close : List ℚ) : Bool :=
  decide (last2 (ema close 9) ≤ last2 (ema close 21)) &&
  decide (last1 (ema close 21) < last1 (ema close 9))

/-- `bearish_cross` of `hybrid_signal_generator`:
`(prev_ema9 >= prev_ema21) and (ema9 < ema21)`. -/
def bearish_cross (close : List ℚ) : Bool :=
  decide (last2 (ema close 21) ≤ last2 (ema close 9)) &&
  decide (last1 (ema close 9) < last1 (ema close 21))

/-- The true-range series `tr` of `hybrid_signal_generator`:
`max(high[i]-low[i], |high[i]-close[i-1]|, |low[i]-close[i-1]|)` for `i ≥ 1`.
The first argument carries the previous close; `np.abs x` is written
`max x (-x)` (definitionally equal to `|x|`) to keep the definition
kernel-evaluable. -/
def trAux : ℚ → List ℚ → List ℚ → List ℚ → List ℚ
  | pc, h :: hs, l :: ls, c :: cs =>
    max (h - l) (max (max (h - pc) (pc - h)) (max (l - pc) (pc - l))) :: trAux c hs ls cs
  | _, _, _, _ => []

/-- `tr = np.maximum(high[1:]-low[1:], np.maximum(|high[1:]-close[:-1]|,
|low[1:]-close[:-1]|))`. -/
def trList (high low close : List ℚ) : List ℚ :=
  match high, low, close with
  | _ :: hs, _ :: ls, c :: cs => trAux c hs ls cs
  | _, _, _ => []

/-- `atr = pd.Series(tr).rolling(14).mean().iloc[-1] if len(tr) >= 14 else 0`. -/
def atrLast (high low close : List ℚ) : ℚ :=
  let tr := trList high low close
  if 14 ≤ tr.length then (lastWindow tr 14).sum / 14 else 0

/-- The `info` dict built by `hybrid_signal_generator` (its values are
displayed through `round(.., 6)` in the source; the rounding is display
precision only and is not modelled). -/
structure HybridInfo where
  EMA9 : ℚ
  EMA21 : ℚ
  Cross : String
  ATR : ℚ
  Close : ℚ
deriving DecidableEq, Repr

/-- `hybrid_signal_generator(df)` of bot.py: signal `2`=BUY, `1`=SELL,
`0`=NONE; `none` models the empty info dict `{}` returned by the
short-window guard `if len(df) < 35`. -/
def hybrid_signal_generator (df : List Candle) : ℕ × Option HybridInfo :=
  if df.length < 35 then (0, none)
  else
    let close := df.map Candle.Close
    let high := df.map Candle.High
    let low := df.map Candle.Low
    let ema9 := last1 (ema close 9)
    let cur := last1 close
    let prev := last2 close
    let atr := atrLast high low close
    let info : HybridInfo :=
      { EMA9 := ema9, EMA21 := last1 (ema close 21),
        Cross := if bullish_cross close then "Bull"
                 else if bearish_cross close then "Bear" else "None",
        ATR := atr, Close := cur }
    if bullish_cross close && decide (ema9 < cur) && decide (prev < cur) &&
        decide (MIN_ATR < atr) then (2, some info)
    else if bearish_cross close && decide (cur < ema9) && decide (cur < prev) &&
        decide (MIN_ATR < atr) then (1, some info)
    else (0, some info)

/-- The proposal response of `trade_on_deriv`: `error` is the truthiness of
`resp.get("error")`, `id` is `resp["proposal"]["id"]`. -/
structure ProposalResp where
  error : Bool
  id : ℕ
deriving DecidableEq, Repr

/-- The buy response of `trade_on_deriv`: `hasBuy` is `"buy" in buy_resp`,
`profit` is the optional `buy_resp["buy"]["profit"]` (defaulted to `0.0` by
`.get("profit", 0.0)`). -/
structure BuyResp where
  hasBuy : Bool
  profit : Option ℚ
deriving DecidableEq, Repr

/-- The venue interaction observed by one `trade_on_deriv` call: either a
raised exception (caught by its `except` clause) or the pair of proposal and
buy responses. -/
inductive Venue where
  | fault
  | responses (prop : ProposalResp) (buy : BuyResp)
deriving DecidableEq, Repr

/-- `trade_on_deriv(symbol, signal, stake)` of bot.py, as a function of the
global `daily_pnl` and the venue interaction. Returns
`((accepted, profit), new daily_pnl)`: the proposal-error and missing-buy
paths return `(False, 0.0)` leaving `daily_pnl` untouched; the success path
reads `profit` from the venue fill and adds it to `daily_pnl`. -/
def trade_on_deriv (daily_pnl : ℚ) (venue : Venue) : (Bool × ℚ) × ℚ :=
  match venue with
  | .fault => ((false, 0), daily_pnl)
  | .responses prop buy =>
    if prop.error then ((false, 0), daily_pnl)
    else if !buy.hasBuy then ((false, 0), daily_pnl)
    else
      let profit := buy.profit.getD 0
      ((true, profit), daily_pnl + profit)

/-- The mutable loop state of bot.py: the globals `daily_pnl` and
`today_date` (dates are abstracted as day numbers). -/
structure State where
  pnl : ℚ
  today : ℕ
deriving DecidableEq, Repr

/-- The daily-reset-then-stop-check prologue of `trading_loop` (its first two
statements): if the wall-clock date advanced, reset `daily_pnl` to 0 and
advance `today_date`; then report whether `daily_pnl <= DAILY_LOSS_LIMIT`. -/
def checkAndMaybeResetDay (s : State) (now : ℕ) : State × Bool :=
  let s1 := if now ≠ s.today then { pnl := 0, today := now } else s
  (s1, decide (s1.pnl ≤ DAILY_LOSS_LIMIT))

/-- Everything one cycle of `trading_loop` observes from the outside world:
the wall-clock day, the symbol lookup outcome, the fetched candle window
(`[]` for an empty/failed fetch), and the venue interaction of a dispatched
trade. -/
structure CycleInput where
  now : ℕ
  symbolIn : SymbolLookup
  fetch : List Candle
  venue : Venue
deriving DecidableEq, Repr

/-- What one cycle of `trading_loop` did: the value of the stop check, and
the signal dispatched to `trade_on_deriv` (`none` when no trade was sent). -/
structure CycleEvent where
  stopActive : Bool
  dispatched : Option ℕ
deriving DecidableEq, Repr

/-- One iteration of the `while True` body of `trading_loop`. Returns the
new state, the cycle's event, and whether the loop continues (`false` only
on the `break` taken when the stop check fires). The guard
`df.empty or len(df) < 35` is `fetch.length < 35`; the pacing sleeps do not
change state and are not modelled. -/
def runCycle (s : State) (inp : CycleInput) : State × CycleEvent × Bool :=
  let checked := checkAndMaybeResetDay s inp.now
  let s1 := checked.1
  if checked.2 then (s1, ⟨true, none⟩, false)
  else
    let _symbol := get_valid_symbol inp.symbolIn
    if inp.fetch.length < 35 then (s1, ⟨false, none⟩, true)
    else
      let sig := (hybrid_signal_generator inp.fetch).1
      if sig = 0 then (s1, ⟨false, none⟩, true)
      else
        let traded := trade_on_deriv s1.pnl inp.venue
        ({ s1 with pnl := traded.2 }, ⟨false, some sig⟩, true)

/-- `trading_loop()` of bot.py over a finite trace of cycle inputs: the list
of cycle events, ending early at the `break` of the stop check. -/
def run : State → List CycleInput → List CycleEvent
  | _, [] => []
  | s, inp :: rest =>
    let step := runCycle s inp
    if step.2.2 then step.2.1 :: run step.1 rest else [step.2.1]

/-- A venue interaction whose proposal succeeds and whose buy response
reports `profit = p` (the accepted-trade shape of `trade_on_deriv`). -/
def mkSuccess (p : ℚ) : Venue := .responses ⟨false, 0⟩ ⟨true, some p⟩

/-- `daily_pnl` after a sequence of accepted trades with venue-reported
profits `ps`, each booked through `trade_on_deriv`. -/
def foldTrades (pnl : ℚ) (ps : List ℚ) : ℚ :=
  ps.foldl (fun a p => (trade_on_deriv a (mkSuccess p)).2) pnl

end Bot

/-! ## forex_trading_bot.py — the two-candle strategy -/

namespace ForexTB

/-- `signal_generator(df)` of forex_trading_bot.py. `coin` is the oracle for
`random.choice([1, 2])` reached when no pattern matches (`true` picks 1). -/
def signal_generator (df : List Candle) (coin : Bool) : ℕ :=
  if df.length < 2 then 0
  else
    let opens := df.map Candle.Open
    let closes := df.map Candle.Close
    if last1 opens > last1 closes ∧ last2 opens < last2 closes then 1
    else if last1 opens < last1 closes ∧ last2 opens > last2 closes then 2
    else if last1 closes > last2 closes then 2
    else if last1 closes < last2 closes then 1
    else if coin then 1 else 2

end ForexTB

/-! ## Helper lemmas -/

theorem last1_cons (a : ℚ) (t : List ℚ) (ht : 1 ≤ t.length) :
    last1 (a :: t) = last1 t := by
  unfold last1
  rw [List.length_cons]
  have h : t.length + 1 - 1 = (t.length - 1) + 1 := by omega
  rw [h, List.getD_cons_succ]

theorem last2_cons (a : ℚ) (t : List ℚ) (ht : 2 ≤ t.length) :
    last2 (a :: t) = last2 t := by
  unfold last2
  rw [List.length_cons]
  have h : t.length + 1 - 2 = (t.length - 2) + 1 := by omega
  rw [h, List.getD_cons_succ]

/-- In a strictly increasing series of length at least two, the second-to-last
value is below the last. -/
theorem chain'_lt_last2_lt_last1 : ∀ (l : List ℚ),
    List.Chain' (· < ·) l → 2 ≤ l.length → last2 l < last1 l := by
  intro l
  induction l with
  | nil => intro _ h2; simp at h2
  | cons a t ih =>
    intro hc h2
    cases t with
    | nil => simp at h2
    | cons b u =>
      rcases List.chain'_cons.mp hc with ⟨hab, hbu⟩
      cases u with
      | nil => simpa [last1, last2] using hab
      | cons c v =>
        have ht2 : 2 ≤ (b :: c :: v).length := by simp
        rw [last1_cons a _ (by simp), last2_cons a _ ht2]
        exact ih hbu ht2

theorem foldTrades_eq_add_sum (pnl : ℚ) (ps : List ℚ) :
    Bot.foldTrades pnl ps = pnl + ps.sum := by
  induction ps generalizing pnl with
  | nil => simp [Bot.foldTrades]
  | cons p ps ih =>
    have hstep : Bot.trade_on_deriv pnl (Bot.mkSuccess p) = ((true, p), pnl + p) := rfl
    show Bot.foldTrades ((Bot.trade_on_deriv pnl (Bot.mkSuccess p)).2) ps = _
    rw [hstep, ih (pnl + p), List.sum_cons, add_assoc]

theorem decideVotes_spec (vb vs : ℕ) :
    (Forex.decideVotes vb vs = 2 ↔ Forex.VOTE_THRESHOLD ≤ vb ∧ vs < vb) ∧
    (Forex.decideVotes vb vs = 1 ↔ Forex.VOTE_THRESHOLD ≤ vs ∧ vb < vs) ∧
    (Forex.decideVotes vb vs = 0 ↔
      ¬(Forex.VOTE_THRESHOLD ≤ vb ∧ vs < vb) ∧ ¬(Forex.VOTE_THRESHOLD ≤ vs ∧ vb < vs)) := by
  unfold Forex.decideVotes Forex.VOTE_THRESHOLD
  split_ifs with h1 h2
  · exact ⟨⟨fun _ => h1, fun _ => rfl⟩,
      ⟨fun h => absurd h (by decide), fun h => by exfalso; omega⟩,
      ⟨fun h => absurd h (by decide), fun h => absurd h1 h.1⟩⟩
  · exact ⟨⟨fun h => absurd h (by decide), fun h => absurd h h1⟩,
      ⟨fun _ => h2, fun _ => rfl⟩,
      ⟨fun h => absurd h (by decide), fun h => absurd h2 h.2⟩⟩
  · exact ⟨⟨fun h => absurd h (by decide), fun h => absurd h h1⟩,
      ⟨fun h => absurd h (by decide), fun h => absurd h h2⟩,
      ⟨fun _ => ⟨h1, h2⟩, fun _ => rfl⟩⟩

/-- Case analysis of one loop cycle: the loop terminates exactly when the
cycle's stop check fired, and a stopping cycle dispatches nothing. -/
theorem runCycle_cases (s : Bot.State) (inp : Bot.CycleInput) :
    ((Bot.runCycle s inp).2.2 = false ↔ (Bot.runCycle s inp).2.1.stopActive = true) ∧
    ((Bot.runCycle s inp).2.1.stopActive = true →
      (Bot.runCycle s inp).2.1.dispatched = none) := by
  unfold Bot.runCycle
  by_cases hc : (Bot.checkAndMaybeResetDay s inp.now).2 <;>
    by_cases h35 : inp.fetch.length < 35 <;>
    by_cases hsig : (Bot.hybrid_signal_generator inp.fetch).1 = 0 <;>
    simp [hc, h35, hsig]

theorem run_cons (s : Bot.State) (inp : Bot.CycleInput) (rest : List Bot.CycleInput) :
    Bot.run s (inp :: rest) =
      if (Bot.runCycle s inp).2.2 then
        (Bot.runCycle s inp).2.1 :: Bot.run (Bot.runCycle s inp).1 rest
      else [(Bot.runCycle s inp).2.1] := rfl

/-- A stopping event can only be the final event of a run, and it carries no
dispatch. -/
theorem run_stop_last : ∀ (s : Bot.State) (l : List Bot.CycleInput) (i : ℕ)
    (hi : i < (Bot.run s l).length),
    ((Bot.run s l).get ⟨i, hi⟩).stopActive = true →
    i + 1 = (Bot.run s l).length ∧ ((Bot.run s l).get ⟨i, hi⟩).dispatched = none := by
  intro s l
  induction l generalizing s with
  | nil => intro i hi; simp [Bot.run] at hi
  | cons inp rest ih =>
    intro i hi hstop
    by_cases hcont : (Bot.runCycle s inp).2.2 = true
    · have hrun : Bot.run s (inp :: rest) =
          (Bot.runCycle s inp).2.1 :: Bot.run (Bot.runCycle s inp).1 rest := by
        rw [run_cons, if_pos hcont]
      cases i with
      | zero =>
        exfalso
        have h0 : ((Bot.run s (inp :: rest)).get ⟨0, hi⟩) = (Bot.runCycle s inp).2.1 := by
          simp [hrun]
        rw [h0] at hstop
        have := (runCycle_cases s inp).1.mpr hstop
        rw [this] at hcont
        exact Bool.false_ne_true hcont
      | succ k =>
        have hk : k < (Bot.run (Bot.runCycle s inp).1 rest).length := by
          have := hi; rw [hrun] at this; simpa using this
        have hget : (Bot.run s (inp :: rest)).get ⟨k + 1, hi⟩ =
            (Bot.run (Bot.runCycle s inp).1 rest).get ⟨k, hk⟩ := by
          simp [hrun]
        rw [hget] at hstop
        obtain ⟨hlen, hdisp⟩ := ih (Bot.runCycle s inp).1 k hk hstop
        constructor
        · rw [hrun]; simp only [List.length_cons]; omega
        · rw [hget]; exact hdisp
    · have hrun : Bot.run s (inp :: rest) = [(Bot.runCycle s inp).2.1] := by
        rw [run_cons, if_neg hcont]
      have hi1 : i = 0 := by
        have := hi; rw [hrun] at this; simpa using this
      subst hi1
      have h0 : ((Bot.run s (inp :: rest)).get ⟨0, hi⟩) = (Bot.runCycle s inp).2.1 := by
        simp [hrun]
      rw [h0] at hstop ⊢
      refine ⟨by rw [hrun]; rfl, (runCycle_cases s inp).2 hstop⟩

/-! ## Claim theorems -/

/-- C1: in every cycle of `trading_loop` whose stop check reports the stop
condition active, and in every later cycle of the same run, no signal is
dispatched to `trade_on_deriv`; moreover the stop check is the only terminal
exit of the loop (`break` is taken exactly when the check fires), so a
dispatch is reachable only after the check has passed in the same cycle. -/
theorem trading_loop_stop_gates_dispatch (s0 : Bot.State) (inputs : List Bot.CycleInput)
    (i j : ℕ) (hi : i < (Bot.run s0 inputs).length) (hj : j < (Bot.run s0 inputs).length)
    (hij : i ≤ j)
    (hstop : ((Bot.run s0 inputs).get ⟨i, hi⟩).stopActive = true) :
    ((Bot.run s0 inputs).get ⟨j, hj⟩).dispatched = none ∧
    ∀ (s : Bot.State) (inp : Bot.CycleInput),
      ((Bot.runCycle s inp).2.2 = false ↔ (Bot.runCycle s inp).2.1.stopActive = true) := by
  obtain ⟨hlast, hdisp⟩ := run_stop_last s0 inputs i hi hstop
  have hji : j = i := by omega
  subst hji
  exact ⟨hdisp, fun s inp => (runCycle_cases s inp).1⟩

theorem trading_loop_stop_gates_dispatch_witness :
    ((Bot.run ⟨-10, 0⟩ [⟨0, .exception, [], .fault⟩]).get
        ⟨0, by with_unfolding_all decide⟩).stopActive = true ∧
    ((Bot.run ⟨-10, 0⟩ [⟨0, .exception, [], .fault⟩]).get
        ⟨0, by with_unfolding_all decide⟩).dispatched = none :=
  ⟨by with_unfolding_all decide,
   (trading_loop_stop_gates_dispatch ⟨-10, 0⟩ [⟨0, .exception, [], .fault⟩] 0 0
      (by with_unfolding_all decide) (by with_unfolding_all decide) (le_refl 0)
      (by with_unfolding_all decide)).1⟩

/-- C2: an accepted trade adds exactly the venue-reported profit to
`daily_pnl`; booking accepted outcomes whose profits sum to exactly
`DAILY_LOSS_LIMIT` makes the stop check report stop active; and when the
wall-clock day has advanced, the check resets `daily_pnl` to 0 and advances
the day before checking, so the stop is inactive. -/
theorem risk_governor_accounting (daily_pnl : ℚ) (venue : Bot.Venue) (ps : List ℚ)
    (d : ℕ) (s : Bot.State) (now : ℕ)
    (hacc : (Bot.trade_on_deriv daily_pnl venue).1.1 = true)
    (hsum : ps.sum = Bot.DAILY_LOSS_LIMIT)
    (hday : now ≠ s.today) :
    (Bot.trade_on_deriv daily_pnl venue).2 =
      daily_pnl + (Bot.trade_on_deriv daily_pnl venue).1.2 ∧
    (Bot.checkAndMaybeResetDay ⟨Bot.foldTrades 0 ps, d⟩ d).2 = true ∧
    Bot.checkAndMaybeResetDay s now = (⟨0, now⟩, false) := by
  refine ⟨?_, ?_, ?_⟩
  · cases venue with
    | fault => simp [Bot.trade_on_deriv] at hacc
    | responses prop buy =>
      unfold Bot.trade_on_deriv at hacc ⊢
      by_cases he : prop.error
      · simp [he] at hacc
      · by_cases hb : buy.hasBuy
        · simp [he, hb]
        · simp [he, hb] at hacc
  · unfold Bot.checkAndMaybeResetDay
    rw [foldTrades_eq_add_sum, hsum]
    simp [Bot.DAILY_LOSS_LIMIT]
  · unfold Bot.checkAndMaybeResetDay
    rw [if_pos hday]
    simp [Bot.DAILY_LOSS_LIMIT]

theorem risk_governor_accounting_witness :
    ((Bot.trade_on_deriv 0 (Bot.mkSuccess (-10))).1.1 = true ∧
     [(-10 : ℚ)].sum = Bot.DAILY_LOSS_LIMIT ∧ (1 : ℕ) ≠ (Bot.State.mk 0 0).today) ∧
    ((Bot.trade_on_deriv 0 (Bot.mkSuccess (-10))).2 =
       0 + (Bot.trade_on_deriv 0 (Bot.mkSuccess (-10))).1.2 ∧
     (Bot.checkAndMaybeResetDay ⟨Bot.foldTrades 0 [(-10 : ℚ)], 5⟩ 5).2 = true ∧
     Bot.checkAndMaybeResetDay ⟨0, 0⟩ 1 = (⟨0, 1⟩, false)) :=
  ⟨⟨rfl, by with_unfolding_all decide, by decide⟩,
   risk_governor_accounting 0 (Bot.mkSuccess (-10)) [(-10 : ℚ)] 5 ⟨0, 0⟩ 1 rfl
     (by with_unfolding_all decide) (by decide)⟩

/-- C3: an execution attempt whose proposal response carries an error field,
or whose buy response lacks a fill, returns a non-accepted outcome with
profit 0 and leaves `daily_pnl` unchanged. -/
theorem trade_failure_atomicity (daily_pnl : ℚ) (prop : Bot.ProposalResp)
    (buy : Bot.BuyResp) (h : prop.error = true ∨ buy.hasBuy = false) :
    Bot.trade_on_deriv daily_pnl (.responses prop buy) = ((false, 0), daily_pnl) := by
  unfold Bot.trade_on_deriv
  rcases h with h | h <;> simp [h]

theorem trade_failure_atomicity_witness :
    ((Bot.ProposalResp.mk true 0).error = true ∨ (Bot.BuyResp.mk true (some 5)).hasBuy = false) ∧
    Bot.trade_on_deriv 7 (.responses ⟨true, 0⟩ ⟨true, some 5⟩) = ((false, 0), 7) :=
  ⟨Or.inl rfl, trade_failure_atomicity 7 ⟨true, 0⟩ ⟨true, some 5⟩ (Or.inl rfl)⟩

/-- C4 counterexample: the Ensemble-Vote variant does not short-circuit on
windows shorter than its minimum (its caller requires
`max(EMA_SLOW, BB_PERIOD, RSI_PERIOD, MACD_SLOW) + 2 = 28` bars): on the
two-bar window with closes `[1, 2]` — far below any `W_min` — it computes
its indicators and returns BUY with votes `(2, 0)`, not NONE with an empty
snapshot. -/
theorem ensemble_short_window_signals :
    ([⟨1, 1, 1, 1⟩, ⟨2, 2, 2, 2⟩] : List Candle).length < 28 ∧
    Forex.ensemble_signal [⟨1, 1, 1, 1⟩, ⟨2, 2, 2, 2⟩] = some (2, 2, 0) :=
  ⟨by decide, by with_unfolding_all decide⟩

/-- C4 (amended): the short-window short-circuit holds for the
Crossover-Filter variant — `hybrid_signal_generator` returns NONE with the
empty snapshot for every window shorter than 35 bars without computing
indicators — while the Ensemble-Vote variant has no internal guard: its
caller checks the window length, and `ensemble_signal` itself raises
(IndexError from `iloc[-2]`) on windows shorter than two bars. -/
theorem short_window_shortcircuit (df df2 : List Candle)
    (h35 : df.length < 35) (h2 : df2.length < 2) :
    Bot.hybrid_signal_generator df = (0, none) ∧ Forex.ensemble_signal df2 = none := by
  constructor
  · unfold Bot.hybrid_signal_generator
    rw [if_pos h35]
  · unfold Forex.ensemble_signal
    simp [List.length_map, h2]

theorem short_window_shortcircuit_witness :
    (([] : List Candle).length < 35 ∧ ([⟨1, 1, 1, 1⟩] : List Candle).length < 2) ∧
    (Bot.hybrid_signal_generator [] = (0, none) ∧
     Forex.ensemble_signal [⟨1, 1, 1, 1⟩] = none) :=
  ⟨⟨by decide, by decide⟩, short_window_shortcircuit [] [⟨1, 1, 1, 1⟩] (by decide) (by decide)⟩

/-- C5: `ensemble_signal` returns BUY iff the buy vote count reaches
`VOTE_THRESHOLD` and strictly exceeds the sell count, SELL under the mirror
condition, and NONE otherwise (ties or sub-threshold counts), regardless of
the individual votes. -/
theorem ensemble_vote_decision_rule (df : List Candle) (sig vb vs : ℕ)
    (h : Forex.ensemble_signal df = some (sig, vb, vs)) :
    (sig = 2 ↔ Forex.VOTE_THRESHOLD ≤ vb ∧ vs < vb) ∧
    (sig = 1 ↔ Forex.VOTE_THRESHOLD ≤ vs ∧ vb < vs) ∧
    (sig = 0 ↔ ¬(Forex.VOTE_THRESHOLD ≤ vb ∧ vs < vb) ∧
               ¬(Forex.VOTE_THRESHOLD ≤ vs ∧ vb < vs)) := by
  unfold Forex.ensemble_signal at h
  by_cases hlen : (df.map Candle.Close).length < 2
  · rw [if_pos hlen] at h
    exact absurd h (by simp)
  · rw [if_neg hlen] at h
    rw [Option.some.injEq, Prod.mk.injEq, Prod.mk.injEq] at h
    obtain ⟨h1, h2, h3⟩ := h
    subst h2
    subst h3
    subst h1
    exact decideVotes_spec _ _

theorem ensemble_vote_decision_rule_witness :
    Forex.ensemble_signal [⟨1, 1, 1, 1⟩, ⟨2, 2, 2, 2⟩] = some (2, 2, 0) ∧
    ((2 = 2 ↔ Forex.VOTE_THRESHOLD ≤ 2 ∧ 0 < 2) ∧
     (2 = 1 ↔ Forex.VOTE_THRESHOLD ≤ 0 ∧ 2 < 0) ∧
     (2 = 0 ↔ ¬(Forex.VOTE_THRESHOLD ≤ 2 ∧ 0 < 2) ∧ ¬(Forex.VOTE_THRESHOLD ≤ 0 ∧ 2 < 0))) :=
  ⟨by with_unfolding_all decide,
   ensemble_vote_decision_rule [⟨1, 1, 1, 1⟩, ⟨2, 2, 2, 2⟩] 2 2 0
     (by with_unfolding_all decide)⟩

/-- C6: EMA crossing detection fires only on a strict sign change of the
fast-minus-slow EMA difference between the previous and current bar, in both
the Crossover-Filter (spans 9/21) and the Ensemble-Vote (spans 5/20)
variants: a bullish (bearish) cross is reported exactly when the previous
difference is non-positive (non-negative) and the current difference is
strictly positive (strictly negative); in particular neither flag re-fires
while the current ordering persists (previous difference already of the
current sign). -/
theorem ema_cross_strict_sign_change (close : List ℚ) :
    (Bot.bullish_cross close = true ↔
      last2 (ema close 9) - last2 (ema close 21) ≤ 0 ∧
      0 < last1 (ema close 9) - last1 (ema close 21)) ∧
    (Bot.bearish_cross close = true ↔
      0 ≤ last2 (ema close 9) - last2 (ema close 21) ∧
      last1 (ema close 9) - last1 (ema close 21) < 0) ∧
    (0 < last2 (ema close 9) - last2 (ema close 21) →
      Bot.bullish_cross close = false) ∧
    (last2 (ema close 9) - last2 (ema close 21) < 0 →
      Bot.bearish_cross close = false) ∧
    (Forex.emaCrossBuy close = true ↔
      last2 (ema close Forex.EMA_FAST) - last2 (ema close Forex.EMA_SLOW) ≤ 0 ∧
      0 < last1 (ema close Forex.EMA_FAST) - last1 (ema close Forex.EMA_SLOW)) ∧
    (Forex.emaCrossSell close = true ↔
      0 ≤ last2 (ema close Forex.EMA_FAST) - last2 (ema close Forex.EMA_SLOW) ∧
      last1 (ema close Forex.EMA_FAST) - last1 (ema close Forex.EMA_SLOW) < 0) ∧
    (0 < last2 (ema close Forex.EMA_FAST) - last2 (ema close Forex.EMA_SLOW) →
      Forex.emaCrossBuy close = false) ∧
    (last2 (ema close Forex.EMA_FAST) - last2 (ema close Forex.EMA_SLOW) < 0 →
      Forex.emaCrossSell close = false) := by
  have hb : Bot.bullish_cross close = true ↔
      last2 (ema close 9) - last2 (ema close 21) ≤ 0 ∧
      0 < last1 (ema close 9) - last1 (ema close 21) := by
    unfold Bot.bullish_cross
    rw [Bool.and_eq_true, decide_eq_true_iff, decide_eq_true_iff]
    constructor
    · rintro ⟨ha, hc⟩; exact ⟨by linarith, by linarith⟩
    · rintro ⟨ha, hc⟩; exact ⟨by linarith, by linarith⟩
  have hr : Bot.bearish_cross close = true ↔
      0 ≤ last2 (ema close 9) - last2 (ema close 21) ∧
      last1 (ema close 9) - last1 (ema close 21) < 0 := by
    unfold Bot.bearish_cross
    rw [Bool.and_eq_true, decide_eq_true_iff, decide_eq_true_iff]
    constructor
    · rintro ⟨ha, hc⟩; exact ⟨by linarith, by linarith⟩
    · rintro ⟨ha, hc⟩; exact ⟨by linarith, by linarith⟩
  have hf : Forex.emaCrossBuy close = true ↔
      last2 (ema close Forex.EMA_FAST) - last2 (ema close Forex.EMA_SLOW) ≤ 0 ∧
      0 < last1 (ema close Forex.EMA_FAST) - last1 (ema close Forex.EMA_SLOW) := by
    unfold Forex.emaCrossBuy
    rw [Bool.and_eq_true, decide_eq_true_iff, decide_eq_true_iff]
    constructor
    · rintro ⟨ha, hc⟩; exact ⟨by linarith, by linarith⟩
    · rintro ⟨ha, hc⟩; exact ⟨by linarith, by linarith⟩
  have hs : Forex.emaCrossSell close = true ↔
      0 ≤ last2 (ema close Forex.EMA_FAST) - last2 (ema close Forex.EMA_SLOW) ∧
      last1 (ema close Forex.EMA_FAST) - last1 (ema close Forex.EMA_SLOW) < 0 := by
    unfold Forex.emaCrossSell
    rw [Bool.and_eq_true, decide_eq_true_iff, decide_eq_true_iff]
    constructor
    · rintro ⟨ha, hc⟩; exact ⟨by linarith, by linarith⟩
    · rintro ⟨ha, hc⟩; exact ⟨by linarith, by linarith⟩
  refine ⟨hb, hr, ?_, ?_, hf, hs, ?_, ?_⟩
  · intro h
    cases hbc : Bot.bullish_cross close with
    | false => rfl
    | true => exact absurd (hb.mp hbc).1 (by linarith)
  · intro h
    cases hbc : Bot.bearish_cross close with
    | false => rfl
    | true => exact absurd (hr.mp hbc).1 (by linarith)
  · intro h
    cases hbc : Forex.emaCrossBuy close with
    | false => rfl
    | true => exact absurd (hf.mp hbc).1 (by linarith)
  · intro h
    cases hbc : Forex.emaCrossSell close with
    | false => rfl
    | true => exact absurd (hs.mp hbc).1 (by linarith)

theorem ema_cross_strict_sign_change_witness :
    Bot.bullish_cross [1, 2] = true :=
  (ema_cross_strict_sign_change [1, 2]).1.mpr
    ⟨by with_unfolding_all decide, by with_unfolding_all decide⟩

/-- C7: at the failing input — a two-candle window where neither the
reversal nor the momentum pattern matches (all opens and closes equal) —
`signal_generator` of forex_trading_bot.py returns the coin-flip direction
`random.choice([1, 2])`, never NONE, contradicting the claimed
NONE-by-default behaviour (the spec itself flags this fallback as a likely
latent defect). -/
theorem random_fallback_not_none (coin : Bool) :
    ForexTB.signal_generator [⟨1, 1, 1, 1⟩, ⟨1, 1, 1, 1⟩] coin = 1 ∨
    ForexTB.signal_generator [⟨1, 1, 1, 1⟩, ⟨1, 1, 1, 1⟩] coin = 2 := by
  cases coin
  · right; with_unfolding_all decide
  · left; with_unfolding_all decide

/-- C8: on a window whose close series is strictly monotonically increasing
(highs and lows arbitrary), `hybrid_signal_generator` never returns SELL:
its SELL branch requires the current close strictly below the previous one. -/
theorem monotone_close_never_sell (df : List Candle)
    (h : List.Chain' (· < ·) (df.map Candle.Close)) :
    (Bot.hybrid_signal_generator df).1 ≠ 1 := by
  intro h1
  unfold Bot.hybrid_signal_generator at h1
  by_cases h35 : df.length < 35
  · rw [if_pos h35] at h1
    simp at h1
  · rw [if_neg h35] at h1
    dsimp only at h1
    split at h1
    · simp at h1
    · split at h1
      · next hcond =>
        simp only [Bool.and_eq_true] at hcond
        obtain ⟨⟨⟨hbc, hcur⟩, hbear⟩, hatr⟩ := hcond
        have hlt : last1 (df.map Candle.Close) < last2 (df.map Candle.Close) :=
          of_decide_eq_true hbear
        have h2 : 2 ≤ (df.map Candle.Close).length := by
          rw [List.length_map]; omega
        exact absurd hlt (lt_asymm (chain'_lt_last2_lt_last1 _ h h2))
      · simp at h1

theorem monotone_close_never_sell_witness :
    List.Chain' (· < ·) ([⟨1, 1, 1, 1⟩, ⟨2, 2, 2, 2⟩].map Candle.Close) ∧
    (Bot.hybrid_signal_generator [⟨1, 1, 1, 1⟩, ⟨2, 2, 2, 2⟩]).1 ≠ 1 :=
  ⟨by norm_num [List.chain'_cons, List.chain'_singleton],
   monotone_close_never_sell [⟨1, 1, 1, 1⟩, ⟨2, 2, 2, 2⟩]
     (by norm_num [List.chain'_cons, List.chain'_singleton])⟩

/-- C9: the embedded `rsi` is total at its last value: with fewer than
`RSI_PERIOD` deltas it reports NaN and the RSI ensemble vote abstains (both
band conditions are false on NaN), and when the rolling downward average is
exactly zero while the upward average is positive it reports the maximal
momentum value 100 instead of a division fault. -/
theorem rsi_division_safe (close : List ℚ) :
    (close.length < 15 →
      Forex.rsiLast close Forex.RSI_PERIOD = .nan ∧
      Forex.rsiBuyVote (Forex.rsiLast close Forex.RSI_PERIOD) = false ∧
      Forex.rsiSellVote (Forex.rsiLast close Forex.RSI_PERIOD) = false) ∧
    (Forex.RSI_PERIOD ≤ (deltas close).length →
      Forex.ma_downLast close Forex.RSI_PERIOD = 0 →
      0 < Forex.ma_upLast close Forex.RSI_PERIOD →
      Forex.rsiLast close Forex.RSI_PERIOD = .val 100) := by
  constructor
  · intro hlen
    have hd : (deltas close).length < Forex.RSI_PERIOD := by
      rw [deltas_length]
      unfold Forex.RSI_PERIOD
      omega
    have h1 : Forex.rsLast close Forex.RSI_PERIOD = .nan := by
      unfold Forex.rsLast
      rw [if_pos hd]
    have h2 : Forex.rsiLast close Forex.RSI_PERIOD = .nan := by
      unfold Forex.rsiLast
      rw [h1]
    exact ⟨h2, by rw [h2]; rfl, by rw [h2]; rfl⟩
  · intro hlen hdown hup
    have h1 : Forex.rsLast close Forex.RSI_PERIOD = .inf := by
      unfold Forex.rsLast
      rw [if_neg (by omega), if_pos hdown, if_neg (ne_of_gt hup)]
    unfold Forex.rsiLast
    rw [h1]

theorem rsi_division_safe_witness :
    (([] : List ℚ).length < 15 ∧
     Forex.rsiLast [] Forex.RSI_PERIOD = .nan) ∧
    (Forex.ma_downLast [0, 1, 2, 3, 4, 5, 6, 7, 8, 9, 10, 11, 12, 13, 14, 15]
        Forex.RSI_PERIOD = 0 ∧
     0 < Forex.ma_upLast [0, 1, 2, 3, 4, 5, 6, 7, 8, 9, 10, 11, 12, 13, 14, 15]
        Forex.RSI_PERIOD ∧
     Forex.rsiLast [0, 1, 2, 3, 4, 5, 6, 7, 8, 9, 10, 11, 12, 13, 14, 15]
        Forex.RSI_PERIOD = .val 100) :=
  ⟨⟨by decide, ((rsi_division_safe []).1 (by decide)).1⟩,
   ⟨by with_unfolding_all decide, by with_unfolding_all decide,
    (rsi_division_safe [0, 1, 2, 3, 4, 5, 6, 7, 8, 9, 10, 11, 12, 13, 14, 15]).2
      (by with_unfolding_all decide) (by with_unfolding_all decide)
      (by with_unfolding_all decide)⟩⟩

/-- C10: `get_valid_symbol` is total at its interface in both bot.py and
forex.py: for every transport outcome (authorization error, missing or empty
active-symbols list, no configured symbol active, or a raised exception) it
returns a member of the configured `DERIV_SYMBOLS` list, falling back to the
first configured symbol. -/
theorem get_valid_symbol_total (s : Bot.SymbolLookup) (t : Forex.SymbolLookup) :
    Bot.get_valid_symbol s ∈ Bot.DERIV_SYMBOLS ∧
    Forex.get_valid_symbol t ∈ Forex.DERIV_SYMBOLS := by
  constructor
  · cases s with
    | authError => simp [Bot.get_valid_symbol, Bot.DERIV_SYMBOLS]
    | ok available =>
      simp only [Bot.get_valid_symbol]
      cases hf : List.find? (fun s => available.contains s) Bot.DERIV_SYMBOLS with
      | none => simp [Bot.DERIV_SYMBOLS]
      | some sym => exact List.mem_of_find?_eq_some hf
    | exception => simp [Bot.get_valid_symbol, Bot.DERIV_SYMBOLS]
  · cases t with
    | ok active =>
      simp only [Forex.get_valid_symbol]
      cases hf : List.find? (fun s => active.contains s) Forex.DERIV_SYMBOLS with
      | none => simp [Forex.DERIV_SYMBOLS]
      | some sym => exact List.mem_of_find?_eq_some hf
    | exception => simp [Forex.get_valid_symbol, Forex.DERIV_SYMBOLS]
